import Mathlib

/-!
Verification of the configuration-synchronization core of the Flask
AppConfig demo application (`src/flask-app/app.py`).

The Python program keeps a global dictionary `current_config`, fetches a
JSON configuration document from a local AppConfig agent over HTTP
(`fetch_config_from_agent`), merges successful results into the dictionary
in a background loop (`config_updater`), performs one synchronous fetch at
startup (`initialize_config`), and exposes the snapshot through request
handlers (`get_config`, `health`, `list_users`).

Python dictionaries are embedded as association lists of string keys and
scalar JSON values; `dict.get` is first-match lookup and `dict.update` is a
left fold of key-by-key overwrite, matching CPython semantics (existing
keys keep their position, new keys are appended).  Exception flow is made
explicit with a `PyResult` type that records whether a raised exception is
an instance of `requests.exceptions.RequestException`; in the `requests`
library (since 2.27) the `JSONDecodeError` raised by `response.json()` on a
malformed body is such an instance, so it is caught by the `except` clause
of `fetch_config_from_agent`.
-/

/-- A scalar JSON value as stored in the configuration dictionary:
booleans, strings and numbers. -/
inductive JsonValue : Type
  | bool (b : Bool)
  | str (s : String)
  | num (n : Int)
  deriving DecidableEq, Repr

/-- A Python dictionary with string keys and scalar JSON values,
embedded as an association list in insertion order. -/
abbrev PyDict : Type := List (String × JsonValue)

/-- `d.get(k)` / `d[k]` lookup: the value of the first entry whose key is
`k`, if any. -/
def dictGet : PyDict → String → Option JsonValue
  | [], _ => none
  | (k0, v) :: rest, k => if k0 = k then some v else dictGet rest k

/-- Setting one key, as one step of `dict.update`: if the key is present
its entry is overwritten in place (keeping its position in insertion
order), otherwise the pair is appended at the end.  A Python dictionary
binds each key at most once, so overwriting the first occurrence is exact
CPython `d[k] = v` semantics. -/
def dictSet : PyDict → String → JsonValue → PyDict
  | [], k, v => [(k, v)]
  | (k0, v0) :: rest, k, v =>
    if k0 = k then (k, v) :: rest else (k0, v0) :: dictSet rest k v

/-- `old.update(new)`: every entry of `new` overwrites or extends `old`,
key by key, in order. -/
def dictUpdate (old new : PyDict) : PyDict :=
  new.foldl (fun acc p => dictSet acc p.1 p.2) old

/-- `k in d`: the key is bound in the dictionary. -/
def hasKey (d : PyDict) (k : String) : Bool :=
  (dictGet d k).isSome

/-- Python truthiness of a scalar JSON value (`bool(v)`). -/
def truthy : JsonValue → Bool
  | JsonValue.bool b => b
  | JsonValue.str s => !s.isEmpty
  | JsonValue.num n => decide (n ≠ 0)

/-- The global `current_config` dictionary as created at module load:
the compiled-in defaults. -/
def current_config_defaults : PyDict :=
  [("featureXEnabled", JsonValue.bool false),
   ("apiUrl", JsonValue.str "https://api.example.com")]

/-- One mock user record of `MOCK_USERS`. -/
structure User : Type where
  id : Nat
  name : String
  email : String
  role : String
  deriving DecidableEq, Repr

/-- The static `MOCK_USERS` list. -/
def MOCK_USERS : List User :=
  [⟨1, "Alice Johnson", "alice@example.com", "admin"⟩,
   ⟨2, "Bob Smith", "bob@example.com", "user"⟩,
   ⟨3, "Carol Davis", "carol@example.com", "user"⟩,
   ⟨4, "David Wilson", "david@example.com", "moderator"⟩,
   ⟨5, "Eve Brown", "eve@example.com", "user"⟩]

/-- The observable outcome of one `requests.get` call against the agent.
`jsonBody` is the result of parsing the response body as a JSON object:
`some d` when the body is a parseable JSON object `d`, `none` when it is
malformed.  `transportError` is `requests.get` raising a
`requests.exceptions.RequestException` (connection refused, DNS failure,
timeout); `unexpectedError` is any other exception escaping the HTTP call,
which is not an instance of `RequestException`. -/
structure HttpResponse : Type where
  status : Nat
  jsonBody : Option PyDict
  text : String
  deriving DecidableEq

/-- The environment event one fetch attempt runs against. -/
inductive FetchEvent : Type
  | response (r : HttpResponse)
  | transportError (msg : String)
  | unexpectedError (msg : String)
  deriving DecidableEq

/-- Result of running a piece of Python code: a normal value, or a raised
exception tagged with whether it is an instance of
`requests.exceptions.RequestException`. -/
inductive PyResult (A : Type) : Type
  | ok (a : A)
  | exn (isRequestExc : Bool) (msg : String)
  deriving DecidableEq

/-- The `try` body of `fetch_config_from_agent`, before its `except`
clause: on status 200 parse the body (raising `JSONDecodeError`, an
instance of `RequestException`, when malformed) and return the document;
on 304 return `None`; on any other status log and return `None`.  A
transport error is the `requests.get` call raising `RequestException`. -/
def fetch_attempt (ev : FetchEvent) : PyResult (Option PyDict) :=
  match ev with
  | FetchEvent.transportError msg => PyResult.exn true msg
  | FetchEvent.unexpectedError msg => PyResult.exn false msg
  | FetchEvent.response r =>
    if r.status = 200 then
      match r.jsonBody with
      | some d => PyResult.ok (some d)
      | none => PyResult.exn true "JSONDecodeError"
    else if r.status = 304 then
      PyResult.ok none
    else
      PyResult.ok none

/-- `fetch_config_from_agent` (src/flask-app/app.py lines 43-62): the
attempt wrapped in `except requests.exceptions.RequestException`, which
logs the error and returns `None`. -/
def fetch_config_from_agent (ev : FetchEvent) : PyResult (Option PyDict) :=
  match fetch_attempt ev with
  | PyResult.exn true _ => PyResult.ok none
  | r => r

/-- The `try` body of one iteration of the `while True` loop of
`config_updater` (lines 69-79): fetch, and when the result is truthy
(a non-empty dictionary) merge it into the snapshot with
`current_config.update(new_config)`. -/
def config_updater_body (snap : PyDict) (ev : FetchEvent) : PyResult PyDict :=
  match fetch_config_from_agent ev with
  | PyResult.exn b m => PyResult.exn b m
  | PyResult.ok newConfig =>
    match newConfig with
    | some d => if d.isEmpty then PyResult.ok snap else PyResult.ok (dictUpdate snap d)
    | none => PyResult.ok snap

/-- One full iteration of `config_updater` (lines 68-83): the body runs
under `except Exception`, which logs and falls through, and the iteration
always reaches `time.sleep(30)` and continues.  The boolean component is
`true` iff the loop proceeds to its next iteration. -/
def config_updater_iteration (snap : PyDict) (ev : FetchEvent) : PyDict × Bool :=
  match config_updater_body snap ev with
  | PyResult.ok s => (s, true)
  | PyResult.exn _ _ => (snap, true)

/-- The snapshot after running the background loop through a finite
list of fetch events. -/
def run_updater (snap : PyDict) (evs : List FetchEvent) : PyDict :=
  evs.foldl (fun s ev => (config_updater_iteration s ev).1) snap

/-- `initialize_config` (lines 173-188): one synchronous fetch; when the
result is truthy it is merged into the defaults, otherwise the defaults
are kept; then the updater thread is started unconditionally.  There is no
`except` clause here, so an exception escaping the fetch would abort
startup.  The boolean component is `true` iff the updater thread was
started (the synchronizer is Running). -/
def initialize_config (ev : FetchEvent) : PyResult (PyDict × Bool) :=
  match fetch_config_from_agent ev with
  | PyResult.exn b m => PyResult.exn b m
  | PyResult.ok initialConfig =>
    match initialConfig with
    | some d =>
      if d.isEmpty then PyResult.ok (current_config_defaults, true)
      else PyResult.ok (dictUpdate current_config_defaults d, true)
    | none => PyResult.ok (current_config_defaults, true)

/-- `get_config` (lines 151-154): returns the current configuration
snapshot as JSON. -/
def get_config (snap : PyDict) : PyDict :=
  snap

/-- `health` (lines 142-149): returns status string and
`config_loaded = bool(current_config)` (truthiness of the dictionary,
i.e. non-emptiness). -/
def health (snap : PyDict) : String × Bool :=
  ("healthy", !snap.isEmpty)

/-- The body of a `/users` response. -/
inductive UsersResponse : Type
  | denied (flagValue : JsonValue)
  | listing (users : List User) (total : Nat)
  deriving DecidableEq

/-- `list_users` (lines 156-171): if
`current_config.get("featureXEnabled", False)` is falsy, a denial body
with HTTP status 403; otherwise the `MOCK_USERS` listing with HTTP
status 200. -/
def list_users (snap : PyDict) : UsersResponse × Nat :=
  let flag := (dictGet snap "featureXEnabled").getD (JsonValue.bool false)
  if truthy flag then
    (UsersResponse.listing MOCK_USERS MOCK_USERS.length, 200)
  else
    (UsersResponse.denied flag, 403)

/-- The spec's error taxonomy: an event whose fetch outcome the spec
classifies as `Failed` — a transport error, a non-200/304 status, or a
200 status with a malformed body. -/
def isFailedOutcome (ev : FetchEvent) : Bool :=
  match ev with
  | FetchEvent.transportError _ => true
  | FetchEvent.unexpectedError _ => false
  | FetchEvent.response r =>
    if r.status = 200 then r.jsonBody.isNone
    else decide (r.status ≠ 304)

/-! ## Dictionary lemmas -/

lemma dictGet_eq_none_of_not_mem (d : PyDict) (k : String)
    (h : k ∉ d.map Prod.fst) : dictGet d k = none := by
  induction d with
  | nil => rfl
  | cons hd tl ih =>
    simp only [List.map_cons, List.mem_cons] at h
    push_neg at h
    simp only [dictGet]
    rw [if_neg (Ne.symm h.1)]
    exact ih h.2

lemma hasKey_iff_mem (d : PyDict) (k : String) :
    hasKey d k = true ↔ k ∈ d.map Prod.fst := by
  induction d with
  | nil => simp [hasKey, dictGet]
  | cons hd tl ih =>
    by_cases hk : hd.1 = k
    · simp [hasKey, dictGet, hk]
    · simp only [hasKey, dictGet, if_neg hk, List.map_cons, List.mem_cons]
      rw [← hasKey, ih]
      constructor
      · exact Or.inr
      · intro h
        cases h with
        | inl h => exact absurd h.symm hk
        | inr h => exact h

lemma dictGet_dictSet_self (d : PyDict) (k : String) (v : JsonValue) :
    dictGet (dictSet d k v) k = some v := by
  induction d with
  | nil => simp [dictSet, dictGet]
  | cons hd tl ih =>
    by_cases hk : hd.1 = k
    · simp [dictSet, hk, dictGet]
    · simp [dictSet, hk, dictGet, ih]

lemma dictGet_dictSet_ne (d : PyDict) (ks k : String) (v : JsonValue)
    (h : ks ≠ k) : dictGet (dictSet d ks v) k = dictGet d k := by
  induction d with
  | nil => simp [dictSet, dictGet, h]
  | cons hd tl ih =>
    by_cases hk : hd.1 = ks
    · have hd1 : hd.1 ≠ k := by rw [hk]; exact h
      simp only [dictSet, if_pos hk, dictGet, if_neg h, if_neg hd1]
    · simp only [dictSet, if_neg hk, dictGet]
      split
      · rfl
      · exact ih

lemma hasKey_dictSet (d : PyDict) (ks k : String) (v : JsonValue)
    (h : hasKey d k = true) : hasKey (dictSet d ks v) k = true := by
  by_cases hk : ks = k
  · subst hk
    simp [hasKey, dictGet_dictSet_self]
  · unfold hasKey at h ⊢
    rw [dictGet_dictSet_ne d ks k v hk]
    exact h

lemma dictUpdate_cons (S : PyDict) (p : String × JsonValue) (rest : PyDict) :
    dictUpdate S (p :: rest) = dictUpdate (dictSet S p.1 p.2) rest := rfl

lemma hasKey_dictUpdate (S D : PyDict) (k : String)
    (h : hasKey S k = true) : hasKey (dictUpdate S D) k = true := by
  induction D generalizing S with
  | nil => exact h
  | cons p rest ih =>
    rw [dictUpdate_cons]
    exact ih _ (hasKey_dictSet S p.1 k p.2 h)

lemma dictGet_dictUpdate (D : PyDict) (hD : (D.map Prod.fst).Nodup)
    (S : PyDict) (k : String) :
    dictGet (dictUpdate S D) k =
      if hasKey D k then dictGet D k else dictGet S k := by
  induction D generalizing S with
  | nil => simp [dictUpdate, hasKey, dictGet]
  | cons p rest ih =>
    simp only [List.map_cons, List.nodup_cons] at hD
    rw [dictUpdate_cons, ih hD.2]
    by_cases hk : p.1 = k
    · have hrest : dictGet rest k = none := by
        apply dictGet_eq_none_of_not_mem
        rw [← hk]
        exact hD.1
      have hrestKey : hasKey rest k = false := by
        simp [hasKey, hrest]
      have hDkey : hasKey (p :: rest) k = true := by
        simp [hasKey, dictGet, hk]
      rw [hrestKey, hDkey]
      simp only [Bool.false_eq_true, if_false, if_true]
      rw [← hk, dictGet_dictSet_self]
      simp [dictGet, hk]
    · have h1 : dictGet (p :: rest) k = dictGet rest k := by
        simp [dictGet, hk]
      have h2 : hasKey (p :: rest) k = hasKey rest k := by
        simp [hasKey, h1]
      rw [h2, h1, dictGet_dictSet_ne S p.1 k p.2 hk]

/-! ## Behavioural lemmas about the fetch and the loop -/

lemma fetch_failed_returns_none (ev : FetchEvent)
    (h : isFailedOutcome ev = true) :
    fetch_config_from_agent ev = PyResult.ok none := by
  cases ev with
  | transportError m => rfl
  | unexpectedError m => simp [isFailedOutcome] at h
  | response r =>
    simp only [isFailedOutcome] at h
    by_cases h200 : r.status = 200
    · rw [if_pos h200] at h
      have hbody : r.jsonBody = none := by
        cases hb : r.jsonBody
        · rfl
        · rw [hb] at h
          simp at h
      simp [fetch_config_from_agent, fetch_attempt, h200, hbody]
    · by_cases h304 : r.status = 304
      · rw [if_neg h200, h304] at h
        simp at h
      · simp [fetch_config_from_agent, fetch_attempt, h200, h304]

lemma fetch_success (D : PyDict) (txt : String) :
    fetch_config_from_agent (FetchEvent.response ⟨200, some D, txt⟩)
      = PyResult.ok (some D) := rfl

lemma iteration_of_fetch_none (S : PyDict) (ev : FetchEvent)
    (h : fetch_config_from_agent ev = PyResult.ok none) :
    config_updater_iteration S ev = (S, true) := by
  simp [config_updater_iteration, config_updater_body, h]

lemma iteration_of_success (S D : PyDict) (txt : String)
    (hne : D.isEmpty = false) :
    config_updater_iteration S (FetchEvent.response ⟨200, some D, txt⟩)
      = (dictUpdate S D, true) := by
  simp [config_updater_iteration, config_updater_body, fetch_success, hne]

lemma initialize_of_fetch_none (ev : FetchEvent)
    (h : fetch_config_from_agent ev = PyResult.ok none) :
    initialize_config ev = PyResult.ok (current_config_defaults, true) := by
  simp [initialize_config, h]

lemma initialize_of_success (D : PyDict) (txt : String)
    (hne : D.isEmpty = false) :
    initialize_config (FetchEvent.response ⟨200, some D, txt⟩)
      = PyResult.ok (dictUpdate current_config_defaults D, true) := by
  simp [initialize_config, fetch_success, hne]

lemma iteration_preserves_key (S : PyDict) (ev : FetchEvent) (k : String)
    (h : hasKey S k = true) :
    hasKey (config_updater_iteration S ev).1 k = true := by
  unfold config_updater_iteration config_updater_body
  cases hf : fetch_config_from_agent ev with
  | exn b m => simp [h]
  | ok r =>
    cases r with
    | none => simp [h]
    | some d =>
      by_cases he : d.isEmpty
      · simp [he, h]
      · simp [he, hasKey_dictUpdate S d k h]

lemma run_updater_cons (S : PyDict) (ev : FetchEvent) (evs : List FetchEvent) :
    run_updater S (ev :: evs) = run_updater (config_updater_iteration S ev).1 evs := rfl

lemma run_updater_preserves_key (evs : List FetchEvent) (S : PyDict)
    (k : String) (h : hasKey S k = true) :
    hasKey (run_updater S evs) k = true := by
  induction evs generalizing S with
  | nil => exact h
  | cons ev rest ih =>
    rw [run_updater_cons]
    exact ih _ (iteration_preserves_key S ev k h)

lemma initialize_preserves_key (ev : FetchEvent) (S0 : PyDict)
    (started : Bool) (h0 : initialize_config ev = PyResult.ok (S0, started))
    (k : String) (hk : hasKey current_config_defaults k = true) :
    hasKey S0 k = true := by
  unfold initialize_config at h0
  cases hf : fetch_config_from_agent ev with
  | exn b m =>
    rw [hf] at h0
    exact absurd h0 (by simp)
  | ok r =>
    rw [hf] at h0
    cases r with
    | none =>
      simp only [PyResult.ok.injEq, Prod.mk.injEq] at h0
      rw [← h0.1]
      exact hk
    | some d =>
      by_cases he : d.isEmpty
      · simp only [he, if_true, PyResult.ok.injEq, Prod.mk.injEq] at h0
        rw [← h0.1]
        exact hk
      · simp only [he, Bool.false_eq_true, if_false, PyResult.ok.injEq,
          Prod.mk.injEq] at h0
        rw [← h0.1]
        exact hasKey_dictUpdate current_config_defaults d k hk

lemma nonempty_of_hasKey (d : PyDict) (k : String)
    (h : hasKey d k = true) : d.isEmpty = false := by
  cases d with
  | nil => simp [hasKey, dictGet] at h
  | cons hd tl => rfl

/-! ## Claim theorems -/

/-- Claim C1: merging an `Updated` document `D` into a snapshot `S`, whether
in one iteration of the background loop or during startup initialization,
produces a snapshot in which every key present in `D` maps to `D`'s value
and every key absent from `D` keeps its previous value. -/
theorem merge_overwrites_key_by_key (S D : PyDict)
    (hD : (D.map Prod.fst).Nodup) (k : String) :
    dictGet (config_updater_iteration S
        (FetchEvent.response ⟨200, some D, "body"⟩)).1 k
      = (if hasKey D k then dictGet D k else dictGet S k)
    ∧ ∀ s started,
        initialize_config (FetchEvent.response ⟨200, some D, "body"⟩)
          = PyResult.ok (s, started) →
        dictGet s k
          = (if hasKey D k then dictGet D k
             else dictGet current_config_defaults k) := by
  by_cases hne : D.isEmpty = true
  · have hD0 : D = [] := by
      cases D with
      | nil => rfl
      | cons a b => simp at hne
    subst hD0
    constructor
    · simp [config_updater_iteration, config_updater_body, fetch_success,
        hasKey, dictGet]
    · intro s started hinit
      have hi : initialize_config (FetchEvent.response ⟨200, some [], "body"⟩)
          = PyResult.ok (current_config_defaults, true) := by
        simp [initialize_config, fetch_success]
      rw [hi] at hinit
      simp only [PyResult.ok.injEq, Prod.mk.injEq] at hinit
      rw [← hinit.1]
      simp [hasKey, dictGet]
  · have hne' : D.isEmpty = false := by simpa using hne
    constructor
    · rw [iteration_of_success S D "body" hne']
      exact dictGet_dictUpdate D hD S k
    · intro s started hinit
      rw [initialize_of_success D "body" hne'] at hinit
      simp only [PyResult.ok.injEq, Prod.mk.injEq] at hinit
      rw [← hinit.1]
      exact dictGet_dictUpdate D hD current_config_defaults k

/-- Witness for C1 at the spec's example: merging the document
b maps to 3 into the snapshot a maps to 1, b maps to 2 yields a snapshot
where b maps to 3 and a keeps 1. -/
theorem merge_overwrites_key_by_key_witness :
    dictGet (config_updater_iteration
        [("a", JsonValue.num 1), ("b", JsonValue.num 2)]
        (FetchEvent.response ⟨200, some [("b", JsonValue.num 3)], "body"⟩)).1 "b"
      = some (JsonValue.num 3)
    ∧ dictGet (config_updater_iteration
        [("a", JsonValue.num 1), ("b", JsonValue.num 2)]
        (FetchEvent.response ⟨200, some [("b", JsonValue.num 3)], "body"⟩)).1 "a"
      = some (JsonValue.num 1) := by
  constructor
  · have h := (merge_overwrites_key_by_key
      [("a", JsonValue.num 1), ("b", JsonValue.num 2)]
      [("b", JsonValue.num 3)] (by decide) "b").1
    rw [h]
    simp [hasKey, dictGet]
  · have h := (merge_overwrites_key_by_key
      [("a", JsonValue.num 1), ("b", JsonValue.num 2)]
      [("b", JsonValue.num 3)] (by decide) "a").1
    rw [h]
    simp [hasKey, dictGet]

/-- Claim C2 counterexample: `fetch_config_from_agent` returns the very
same value, Python `None`, for an HTTP 304 response (the spec's
`Unchanged`) and for an HTTP 500 response (the spec's `Failed`), so the
caller cannot tell the two outcomes apart, and the `Failed` return value
carries no status code or body excerpt. -/
theorem fetch_conflates_unchanged_and_failed :
    fetch_config_from_agent (FetchEvent.response ⟨304, none, ""⟩)
      = fetch_config_from_agent
          (FetchEvent.response ⟨500, none, "Internal Server Error"⟩)
    ∧ fetch_config_from_agent (FetchEvent.response ⟨304, none, ""⟩)
      = PyResult.ok none := by
  exact ⟨rfl, rfl⟩

/-- Claim C2 amended: one fetch cycle yields only two distinguishable
return values — the parsed document on HTTP 200 with a parseable JSON
body, and `None` for everything else (304, any other status code, a
malformed 200 body, and transport errors alike); status code and body
excerpt are only logged, not returned. -/
theorem fetch_outcome_characterization (ev : FetchEvent) :
    fetch_config_from_agent ev =
      (match ev with
       | FetchEvent.response r =>
          PyResult.ok (if r.status = 200 then r.jsonBody else none)
       | FetchEvent.transportError _ => PyResult.ok none
       | FetchEvent.unexpectedError m => PyResult.exn false m) := by
  cases ev with
  | response r =>
    by_cases h200 : r.status = 200
    · cases hb : r.jsonBody with
      | some d => simp [fetch_config_from_agent, fetch_attempt, h200, hb]
      | none => simp [fetch_config_from_agent, fetch_attempt, h200, hb]
    · by_cases h304 : r.status = 304
      · simp [fetch_config_from_agent, fetch_attempt, h200, h304]
      · simp [fetch_config_from_agent, fetch_attempt, h200, h304]
  | transportError m => rfl
  | unexpectedError m => rfl

/-- Claim C3: for every snapshot `S` and every `Failed` fetch outcome — a
transport error, a non-200/304 status, a 200 response with a malformed
body, or an unexpected exception inside the iteration body — one loop
iteration leaves the snapshot exactly equal to `S`, and the loop reaches
`time.sleep(30)` and proceeds to its next iteration (continue flag
`true`) rather than terminating. -/
theorem failed_iteration_is_noop (S : PyDict) (ev : FetchEvent)
    (h : isFailedOutcome ev = true ∨ ∃ m, ev = FetchEvent.unexpectedError m) :
    config_updater_iteration S ev = (S, true) := by
  cases h with
  | inl h => exact iteration_of_fetch_none S ev (fetch_failed_returns_none ev h)
  | inr h =>
    obtain ⟨m, rfl⟩ := h
    rfl

/-- Witness for C3: a connection-refused transport error leaves the
default snapshot untouched and the loop continues. -/
theorem failed_iteration_is_noop_witness :
    config_updater_iteration current_config_defaults
        (FetchEvent.transportError "connection refused")
      = (current_config_defaults, true) :=
  failed_iteration_is_noop current_config_defaults
    (FetchEvent.transportError "connection refused") (Or.inl rfl)

/-- Claim C4: in every reachable state of the process — at module load,
after startup initialization with any fetch outcome, and after any
sequence of merge, unchanged and failed loop iterations — the
configuration snapshot contains at least the compiled-in default keys
featureXEnabled and apiUrl. -/
theorem snapshot_contains_default_keys (ev0 : FetchEvent) (S0 : PyDict)
    (started : Bool) (h0 : initialize_config ev0 = PyResult.ok (S0, started))
    (evs : List FetchEvent) :
    (hasKey current_config_defaults "featureXEnabled" = true
      ∧ hasKey current_config_defaults "apiUrl" = true)
    ∧ hasKey (run_updater S0 evs) "featureXEnabled" = true
    ∧ hasKey (run_updater S0 evs) "apiUrl" = true := by
  have hdef1 : hasKey current_config_defaults "featureXEnabled" = true := by
    decide
  have hdef2 : hasKey current_config_defaults "apiUrl" = true := by
    decide
  refine ⟨⟨hdef1, hdef2⟩, ?_, ?_⟩
  · exact run_updater_preserves_key evs S0 _
      (initialize_preserves_key ev0 S0 started h0 _ hdef1)
  · exact run_updater_preserves_key evs S0 _
      (initialize_preserves_key ev0 S0 started h0 _ hdef2)

/-- Witness for C4: starting with a failed initial fetch and running one
failed and one merging iteration, both default keys are still present. -/
theorem snapshot_contains_default_keys_witness :
    (hasKey current_config_defaults "featureXEnabled" = true
      ∧ hasKey current_config_defaults "apiUrl" = true)
    ∧ hasKey (run_updater current_config_defaults
        [FetchEvent.response ⟨500, none, "oops"⟩,
         FetchEvent.response ⟨200, some [("extra", JsonValue.num 7)], "body"⟩])
        "featureXEnabled" = true
    ∧ hasKey (run_updater current_config_defaults
        [FetchEvent.response ⟨500, none, "oops"⟩,
         FetchEvent.response ⟨200, some [("extra", JsonValue.num 7)], "body"⟩])
        "apiUrl" = true :=
  snapshot_contains_default_keys (FetchEvent.transportError "agent down")
    current_config_defaults true rfl
    [FetchEvent.response ⟨500, none, "oops"⟩,
     FetchEvent.response ⟨200, some [("extra", JsonValue.num 7)], "body"⟩]

/-- Claim C5: on a fresh process whose very first startup fetch fails,
initialization still completes — the synchronizer transitions to Running
with the updater thread started — and the read accessor returns exactly
the compiled-in default mapping. -/
theorem startup_failure_keeps_defaults (ev : FetchEvent)
    (h : isFailedOutcome ev = true) :
    initialize_config ev = PyResult.ok (current_config_defaults, true)
    ∧ get_config current_config_defaults = current_config_defaults :=
  ⟨initialize_of_fetch_none ev (fetch_failed_returns_none ev h), rfl⟩

/-- Witness for C5: a timed-out first fetch leaves the accessor returning
the defaults and the updater thread running. -/
theorem startup_failure_keeps_defaults_witness :
    initialize_config (FetchEvent.transportError "ReadTimeout")
      = PyResult.ok (current_config_defaults, true)
    ∧ get_config current_config_defaults = current_config_defaults :=
  startup_failure_keeps_defaults (FetchEvent.transportError "ReadTimeout") rfl

/-- Claim C7: when the snapshot maps featureXEnabled to false, the /users
operation answers a denial body with HTTP 403; after one loop iteration
merges a document that sets featureXEnabled to true, the same operation
in the same process answers the full user listing with HTTP 200 — no
restart involved. -/
theorem feature_gate_controls_user_listing (S D : PyDict)
    (hD : (D.map Prod.fst).Nodup)
    (hS : dictGet S "featureXEnabled" = some (JsonValue.bool false))
    (hDflag : dictGet D "featureXEnabled" = some (JsonValue.bool true)) :
    list_users S = (UsersResponse.denied (JsonValue.bool false), 403)
    ∧ list_users (config_updater_iteration S
        (FetchEvent.response ⟨200, some D, "body"⟩)).1
      = (UsersResponse.listing MOCK_USERS 5, 200) := by
  constructor
  · simp [list_users, hS, truthy]
  · have hne : D.isEmpty = false := by
      cases D with
      | nil => simp [dictGet] at hDflag
      | cons a b => rfl
    rw [iteration_of_success S D "body" hne]
    have hget : dictGet (dictUpdate S D) "featureXEnabled"
        = some (JsonValue.bool true) := by
      rw [dictGet_dictUpdate D hD S "featureXEnabled"]
      simp [hasKey, hDflag]
    simp [list_users, hget, truthy, MOCK_USERS]

/-- Witness for C7: a snapshot with the flag false denies the listing;
after merging a document with the flag true the listing is served. -/
theorem feature_gate_controls_user_listing_witness :
    list_users [("featureXEnabled", JsonValue.bool false)]
      = (UsersResponse.denied (JsonValue.bool false), 403)
    ∧ list_users (config_updater_iteration
        [("featureXEnabled", JsonValue.bool false)]
        (FetchEvent.response
          ⟨200, some [("featureXEnabled", JsonValue.bool true)], "body"⟩)).1
      = (UsersResponse.listing MOCK_USERS 5, 200) :=
  feature_gate_controls_user_listing
    [("featureXEnabled", JsonValue.bool false)]
    [("featureXEnabled", JsonValue.bool true)]
    (by decide) rfl rfl

/-- Claim C8: an HTTP 200 response whose body is not valid JSON is a
failed outcome handled entirely inside the fetch path — the
JSONDecodeError is an instance of RequestException and is caught by the
fetch's own except clause, which returns None without raising — so any
snapshot is left unchanged by the loop iteration, the loop continues, and
startup initialization completes normally with the defaults. -/
theorem malformed_json_never_escapes (S : PyDict) (r : HttpResponse)
    (h200 : r.status = 200) (hbody : r.jsonBody = none) :
    isFailedOutcome (FetchEvent.response r) = true
    ∧ fetch_config_from_agent (FetchEvent.response r) = PyResult.ok none
    ∧ config_updater_iteration S (FetchEvent.response r) = (S, true)
    ∧ initialize_config (FetchEvent.response r)
        = PyResult.ok (current_config_defaults, true) := by
  have hfail : isFailedOutcome (FetchEvent.response r) = true := by
    simp [isFailedOutcome, h200, hbody]
  have hf := fetch_failed_returns_none _ hfail
  exact ⟨hfail, hf, iteration_of_fetch_none S _ hf,
    initialize_of_fetch_none _ hf⟩

/-- Witness for C8: a 200 response carrying an HTML error page instead of
JSON is contained inside the fetch, and neither the loop nor startup is
disturbed. -/
theorem malformed_json_never_escapes_witness :
    isFailedOutcome (FetchEvent.response ⟨200, none, "<html>error</html>"⟩) = true
    ∧ fetch_config_from_agent
        (FetchEvent.response ⟨200, none, "<html>error</html>"⟩)
      = PyResult.ok none
    ∧ config_updater_iteration current_config_defaults
        (FetchEvent.response ⟨200, none, "<html>error</html>"⟩)
      = (current_config_defaults, true)
    ∧ initialize_config (FetchEvent.response ⟨200, none, "<html>error</html>"⟩)
      = PyResult.ok (current_config_defaults, true) :=
  malformed_json_never_escapes current_config_defaults
    ⟨200, none, "<html>error</html>"⟩ rfl rfl

/-- Claim C10: in every reachable state the health endpoint reports
status healthy with config_loaded true, because the snapshot is created
with the two default keys and no operation ever removes keys or empties
it. -/
theorem health_reports_config_loaded (ev0 : FetchEvent) (S0 : PyDict)
    (started : Bool) (h0 : initialize_config ev0 = PyResult.ok (S0, started))
    (evs : List FetchEvent) :
    health current_config_defaults = ("healthy", true)
    ∧ health (run_updater S0 evs) = ("healthy", true) := by
  constructor
  · rfl
  · have hkey : hasKey (run_updater S0 evs) "featureXEnabled" = true :=
      run_updater_preserves_key evs S0 _
        (initialize_preserves_key ev0 S0 started h0 _ (by decide))
    have hne := nonempty_of_hasKey _ _ hkey
    simp [health, hne]

/-- Witness for C10: after a failed startup fetch, a failed iteration and
a merging iteration, the health endpoint still reports healthy and
config_loaded true. -/
theorem health_reports_config_loaded_witness :
    health current_config_defaults = ("healthy", true)
    ∧ health (run_updater current_config_defaults
        [FetchEvent.response ⟨503, none, "unavailable"⟩,
         FetchEvent.response ⟨200, some [("apiUrl", JsonValue.str "x")], "body"⟩])
      = ("healthy", true) :=
  health_reports_config_loaded (FetchEvent.transportError "refused")
    current_config_defaults true rfl
    [FetchEvent.response ⟨503, none, "unavailable"⟩,
     FetchEvent.response ⟨200, some [("apiUrl", JsonValue.str "x")], "body"⟩]
